import Mathlib

/-!
Shallow embedding of the optimistic-update reconciliation logic of the
ExpoEvents frontend (`frontend/src/App.jsx` and the split page components).

The embedding models React functional state updates as pure functions on
lists, and JavaScript promise/`async` outcomes as `Except String` values:
`Except.ok` is a fulfilled promise / normal return, `Except.error` is a
rejection that propagates to the caller.  Each event handler is translated
as a function from its inputs and the outcome of its remote call(s) to
`Except String (state × logs)`: the `logs` component collects the
`console.error` messages the handler emits, and a top-level `Except.error`
would mean the handler let an exception escape past its own catch.
-/

set_option linter.unusedVariables false

namespace ExpoEvents

/-- An event as held in the pages' `events` state: fields as produced by the
backend plus the client-side `isBookmarked` flag (App.jsx `EventCard`). -/
structure Event where
  id : Nat
  name : String
  description : String
  location : Option String
  start_time : String
  end_time : String
  isBookmarked : Bool
deriving DecidableEq, Repr

/-- A notification as held in `MainApp`'s `notifications` state. -/
structure Notification where
  id : Nat
  message : String
  created_at : String
  is_read : Bool
deriving DecidableEq, Repr

/-- A remote call against the backend, identified by HTTP verb and path. -/
inductive ApiCall where
  | get : String → ApiCall
  | post : String → ApiCall
  | put : String → ApiCall
  | delete : String → ApiCall
deriving DecidableEq, Repr

/-- The bookmark endpoint path used by `handleBookmarkToggle` and
`handleRemoveBookmark`: `` `/events/${event.id}/bookmark` ``. -/
def bookmarkPath (i : Nat) : String :=
  "/events/" ++ toString i ++ "/bookmark"

/-- Optimistic update of `handleBookmarkToggle` (App.jsx lines 278-282):
`currentEvents.map(e => e.id === event.id ? \x7b ...e, isBookmarked: !e.isBookmarked \x7d : e)`. -/
def toggleOptimistic (event : Event) (currentEvents : List Event) : List Event :=
  currentEvents.map fun e =>
    if e.id = event.id then { e with isBookmarked := !e.isBookmarked } else e

/-- Failure rollback of `handleBookmarkToggle` (App.jsx lines 292-296):
`currentEvents.map(e => e.id === event.id ? \x7b ...e, isBookmarked: event.isBookmarked \x7d : e)`,
where `event` is the captured pre-toggle object. -/
def toggleRollback (event : Event) (currentEvents : List Event) : List Event :=
  currentEvents.map fun e =>
    if e.id = event.id then { e with isBookmarked := event.isBookmarked } else e

/-- The remote call selected by `handleBookmarkToggle` (App.jsx lines 285-287):
`event.isBookmarked ? api.delete(...) : api.post(...)` on the captured
pre-toggle object. -/
def toggleRequest (event : Event) : ApiCall :=
  if event.isBookmarked then ApiCall.delete (bookmarkPath event.id)
  else ApiCall.post (bookmarkPath event.id)

/-- Optimistic removal of `handleRemoveBookmark` (App.jsx line 343):
`currentEvents.filter(e => e.id !== event.id)`. -/
def removeOptimistic (event : Event) (currentEvents : List Event) : List Event :=
  currentEvents.filter fun e => e.id != event.id

/-- Failure rollback of `handleRemoveBookmark` (App.jsx line 350):
`setEvents(currentEvents => [...currentEvents, event])` — the captured
event is appended unconditionally. -/
def removeRollback (event : Event) (currentEvents : List Event) : List Event :=
  currentEvents ++ [event]

/-- `handleBookmarkToggle` (App.jsx lines 276-298) as a whole, for a run in
which no other mutation interleaves: the optimistic map is applied, then the
remote outcome is observed; `promise.catch` absorbs a rejection, logs it and
applies the rollback map to the then-current state. -/
def handleBookmarkToggleRun (event : Event) (remote : Except String Unit)
    (currentEvents : List Event) : Except String (List Event × List String) :=
  let optimistic := toggleOptimistic event currentEvents
  match remote with
  | Except.ok _ => Except.ok (optimistic, [])
  | Except.error err =>
      Except.ok (toggleRollback event optimistic, ["Failed to toggle bookmark " ++ err])

/-- `handleRemoveBookmark` (App.jsx lines 341-352) as a whole, for a run in
which no other mutation interleaves: optimistic filter, then on rejection the
`.catch` logs and appends the captured event back. -/
def handleRemoveBookmarkRun (event : Event) (remote : Except String Unit)
    (currentEvents : List Event) : Except String (List Event × List String) :=
  let optimistic := removeOptimistic event currentEvents
  match remote with
  | Except.ok _ => Except.ok (optimistic, [])
  | Except.error err =>
      Except.ok (removeRollback event optimistic, ["Failed to remove bookmark " ++ err])

/-- `fetchEvents` of `EventListPage` (App.jsx lines 261-270): `try` the GET,
on success replace the state with the response data, on failure log and leave
the state untouched. -/
def fetchEventsRun (currentEvents : List Event)
    (response : Except String (List Event)) : Except String (List Event × List String) :=
  match response with
  | Except.ok data => Except.ok (data, [])
  | Except.error err => Except.ok (currentEvents, ["Error fetching events " ++ err])

/-- `fetchBookmarkedEvents` of `BookmarksPage` (App.jsx lines 326-335): same
try/catch shape as `fetchEvents`. -/
def fetchBookmarkedEventsRun (currentEvents : List Event)
    (response : Except String (List Event)) : Except String (List Event × List String) :=
  match response with
  | Except.ok data => Except.ok (data, [])
  | Except.error err => Except.ok (currentEvents, ["Error fetching bookmarks " ++ err])

/-- `fetchNotifications` of `MainApp` (App.jsx lines 95-102): try/catch, on
failure the `notifications` state is untouched and the error logged. -/
def fetchNotificationsRun (currentNotifications : List Notification)
    (response : Except String (List Notification)) :
    Except String (List Notification × List String) :=
  match response with
  | Except.ok data => Except.ok (data, [])
  | Except.error err =>
      Except.ok (currentNotifications, ["Error fetching notifications " ++ err])

/-- `handleMarkRead` of `NotificationsPage` (App.jsx lines 377-385): `await`
the PUT inside try/catch; only on its success call `fetchNotifications`
(whose own failure is absorbed internally); on PUT failure just log. -/
def handleMarkReadRun (currentNotifications : List Notification)
    (putResult : Except String Unit)
    (fetchResponse : Except String (List Notification)) :
    Except String (List Notification × List String) :=
  match putResult with
  | Except.ok _ => fetchNotificationsRun currentNotifications fetchResponse
  | Except.error err =>
      Except.ok (currentNotifications, ["Error marking notification read " ++ err])

/-- The `AuthProvider` state (App.jsx lines 17-19): `user` (the identity data
returned by the backend, modelled by its username) and `isLoading`. -/
structure AuthState where
  user : Option String
  isLoading : Bool
deriving DecidableEq, Repr

/-- Initial `AuthProvider` state: `useState(null)` and `useState(true)`. -/
def initialAuthState : AuthState :=
  { user := none, isLoading := true }

/-- `checkSession` (App.jsx lines 23-31): on success `setUser(response.data)`,
on failure `setUser(null)`; either way `setIsLoading(false)` afterwards. -/
def checkSession (response : Except String String) (s : AuthState) : AuthState :=
  match response with
  | Except.ok data => { user := some data, isLoading := false }
  | Except.error _ => { user := none, isLoading := false }

/-- `login` (App.jsx lines 35-39): `await` the POST — a rejection propagates
to the caller (`AuthPage` catches it); on success `setUser(response.data)`. -/
def login (response : Except String String) (s : AuthState) : Except String AuthState :=
  match response with
  | Except.ok data => Except.ok { s with user := some data }
  | Except.error err => Except.error err

/-- `register` (App.jsx lines 41-45): identical shape to `login`. -/
def register (response : Except String String) (s : AuthState) : Except String AuthState :=
  match response with
  | Except.ok data => Except.ok { s with user := some data }
  | Except.error err => Except.error err

/-- `logout` (App.jsx lines 47-50): `await` the POST, then `setUser(null)`;
a rejected POST propagates and `setUser(null)` is never reached. -/
def logout (response : Except String Unit) (s : AuthState) : Except String AuthState :=
  match response with
  | Except.ok _ => Except.ok { s with user := none }
  | Except.error err => Except.error err

/-- The three session phases named by the specification (§4.3). -/
inductive SessionPhase where
  | unknown
  | authenticated
  | anonymous
deriving DecidableEq, Repr

/-- Reading of an `AuthState` as a spec phase: `unknown` while the initial
session check is in flight (`isLoading`), otherwise `authenticated` exactly
when an identity is held. -/
def phase (s : AuthState) : SessionPhase :=
  if s.isLoading then SessionPhase.unknown
  else match s.user with
    | some _ => SessionPhase.authenticated
    | none => SessionPhase.anonymous

/-- Sample event with `id = 1`, not bookmarked; used in witness instantiations. -/
def sampleEventA : Event :=
  { id := 1, name := "Expo opening", description := "keynote and tour", location := none,
    start_time := "2025-01-01T10:00", end_time := "2025-01-01T12:00", isBookmarked := false }

/-- Sample event with `id = 2`, bookmarked; used in witness instantiations. -/
def sampleEventB : Event :=
  { id := 2, name := "Closing gala", description := "awards night", location := some "Hall 2",
    start_time := "2025-01-02T19:00", end_time := "2025-01-02T23:00", isBookmarked := true }

/-- Sample notification used in witness and counterexample instantiations. -/
def sampleNotification : Notification :=
  { id := 7, message := "Expo opening starts soon", created_at := "2025-01-01T09:00",
    is_read := false }

/-- In a collection whose ids are pairwise distinct, any member sharing the id
of the member `ev` is `ev` itself. -/
theorem eq_of_mem_of_nodup_ids {C : List Event} {ev e : Event}
    (hnodup : (C.map Event.id).Nodup) (hev : ev ∈ C) (he : e ∈ C)
    (hid : e.id = ev.id) : e = ev := by
  induction C with
  | nil => cases hev
  | cons a t ih =>
      rw [List.map_cons, List.nodup_cons] at hnodup
      obtain ⟨hna, hnt⟩ := hnodup
      rcases List.mem_cons.mp hev with hev1 | hev2
      · rcases List.mem_cons.mp he with he1 | he2
        · rw [he1, hev1]
        · exfalso
          apply hna
          have hm : e.id ∈ t.map Event.id := List.mem_map_of_mem Event.id he2
          rw [hid, hev1] at hm
          exact hm
      · rcases List.mem_cons.mp he with he1 | he2
        · exfalso
          apply hna
          have hm : ev.id ∈ t.map Event.id := List.mem_map_of_mem Event.id hev2
          rw [← hid, he1] at hm
          exact hm
        · exact ih hnt hev2 he2

/-- The rollback map undoes the optimistic map: on a collection with distinct
ids containing the captured event, composing the two is the identity. -/
theorem toggleRollback_toggleOptimistic {C : List Event} {ev : Event}
    (hmem : ev ∈ C) (hnodup : (C.map Event.id).Nodup) :
    toggleRollback ev (toggleOptimistic ev C) = C := by
  unfold toggleRollback toggleOptimistic
  rw [List.map_map]
  have h : ∀ e ∈ C,
      ((fun e => if e.id = ev.id then { e with isBookmarked := ev.isBookmarked } else e) ∘
        (fun e => if e.id = ev.id then { e with isBookmarked := !e.isBookmarked } else e)) e
        = id e := by
    intro e he
    by_cases hid : e.id = ev.id
    · have heq : e = ev := eq_of_mem_of_nodup_ids hnodup hmem he hid
      subst heq
      simp [Function.comp]
    · simp [Function.comp, hid]
  rw [List.map_congr_left h, List.map_id]

/-- Mapping a function that leaves `id` untouched commutes with filtering on a
predicate that only inspects `id`. -/
theorem filter_map_comm_of_id_preserved (f : Event → Event) (p : Event → Bool)
    (hf : ∀ e, p (f e) = p e) :
    ∀ l : List Event, (l.filter p).map f = (l.map f).filter p := by
  intro l
  induction l with
  | nil => rfl
  | cons a t ih =>
      cases hpa : p a with
      | true => simp [List.filter_cons, hpa, hf, ih]
      | false => simp [List.filter_cons, hpa, hf, ih]

/-- The rollback map commutes with an interleaved optimistic removal, because
the rollback rewrites only the `isBookmarked` field and the removal filter
only inspects `id`. -/
theorem toggleRollback_removeOptimistic (ev evj : Event) (l : List Event) :
    toggleRollback ev (removeOptimistic evj l)
      = removeOptimistic evj (toggleRollback ev l) := by
  unfold toggleRollback removeOptimistic
  apply filter_map_comm_of_id_preserved
  intro e
  by_cases hid : e.id = ev.id <;> simp [hid]

/-- C1: for every collection containing the captured event, running the
bookmark-toggle reconciler and then its remote-failure handler yields the
original collection back exactly (items, order, fields and the target flag),
and the rejection is absorbed into a log entry.  The collection carries the
data-model invariant that server-assigned ids are pairwise distinct. -/
theorem toggle_rollback_roundtrip (C : List Event) (ev : Event) (err : String)
    (hmem : ev ∈ C) (hnodup : (C.map Event.id).Nodup) :
    handleBookmarkToggleRun ev (Except.error err) C
      = Except.ok (C, ["Failed to toggle bookmark " ++ err]) := by
  have h := toggleRollback_toggleOptimistic hmem hnodup
  simp [handleBookmarkToggleRun, h]

/-- Witness for C1 at the spec's own concrete scenario shape
(`[id 1 flag false, id 2 flag true]`, toggle id 1, remote rejects). -/
theorem toggle_rollback_roundtrip_witness :
    sampleEventA ∈ [sampleEventA, sampleEventB]
    ∧ (([sampleEventA, sampleEventB].map Event.id).Nodup)
    ∧ handleBookmarkToggleRun sampleEventA (Except.error "network") [sampleEventA, sampleEventB]
        = Except.ok ([sampleEventA, sampleEventB], ["Failed to toggle bookmark network"]) :=
  ⟨List.mem_cons_self _ _, by decide,
    toggle_rollback_roundtrip [sampleEventA, sampleEventB] sampleEventA "network"
      (List.mem_cons_self _ _) (by decide)⟩

/-- C2: toggling item `ev`, then removing the distinct item `evj` from the
collection, then running `ev`'s remote-failure rollback patches only the item
matching `ev.id`: the result is exactly the original collection minus `evj`,
so `ev`'s flag is back to its pre-toggle value and `evj` stays absent —
matching is by id, never by position. -/
theorem toggle_rollback_by_id (C : List Event) (ev evj : Event)
    (hmem : ev ∈ C) (hnodup : (C.map Event.id).Nodup) (hne : evj.id ≠ ev.id) :
    toggleRollback ev (removeOptimistic evj (toggleOptimistic ev C))
        = removeOptimistic evj C
    ∧ (∀ e ∈ toggleRollback ev (removeOptimistic evj (toggleOptimistic ev C)),
        e.id ≠ evj.id)
    ∧ (∀ e ∈ toggleRollback ev (removeOptimistic evj (toggleOptimistic ev C)),
        e.id = ev.id → e.isBookmarked = ev.isBookmarked) := by
  have hmain : toggleRollback ev (removeOptimistic evj (toggleOptimistic ev C))
      = removeOptimistic evj C := by
    rw [toggleRollback_removeOptimistic, toggleRollback_toggleOptimistic hmem hnodup]
  refine ⟨hmain, ?_, ?_⟩
  · intro e he
    rw [hmain] at he
    unfold removeOptimistic at he
    have := (List.mem_filter.mp he).2
    simpa using this
  · intro e he hid
    rw [hmain] at he
    unfold removeOptimistic at he
    have heC : e ∈ C := (List.mem_filter.mp he).1
    have heq : e = ev := eq_of_mem_of_nodup_ids hnodup hmem heC hid
    rw [heq]

/-- Witness for C2: toggle id 1, remove id 2 while the call is in flight,
then fail id 1's call. -/
theorem toggle_rollback_by_id_witness :
    sampleEventA ∈ [sampleEventA, sampleEventB]
    ∧ (([sampleEventA, sampleEventB].map Event.id).Nodup)
    ∧ sampleEventB.id ≠ sampleEventA.id
    ∧ (toggleRollback sampleEventA
          (removeOptimistic sampleEventB (toggleOptimistic sampleEventA
            [sampleEventA, sampleEventB]))
          = removeOptimistic sampleEventB [sampleEventA, sampleEventB]
      ∧ (∀ e ∈ toggleRollback sampleEventA
            (removeOptimistic sampleEventB (toggleOptimistic sampleEventA
              [sampleEventA, sampleEventB])), e.id ≠ sampleEventB.id)
      ∧ (∀ e ∈ toggleRollback sampleEventA
            (removeOptimistic sampleEventB (toggleOptimistic sampleEventA
              [sampleEventA, sampleEventB])),
          e.id = sampleEventA.id → e.isBookmarked = sampleEventA.isBookmarked)) :=
  ⟨List.mem_cons_self _ _, by decide, by decide,
    toggle_rollback_by_id [sampleEventA, sampleEventB] sampleEventA sampleEventB
      (List.mem_cons_self _ _) (by decide) (by decide)⟩

/-- C3: the removal mutation immediately yields the collection with every item
of the removed id gone (and nothing else gone, order kept); a subsequent
remote failure is absorbed and re-inserts the captured item by appending it,
so the item is present again, content-equal to its pre-removal value. -/
theorem removal_rollback_restores (C : List Event) (ev : Event) (err : String)
    (hmem : ev ∈ C) :
    (∀ e ∈ removeOptimistic ev C, e.id ≠ ev.id)
    ∧ (∀ e ∈ C, e.id ≠ ev.id → e ∈ removeOptimistic ev C)
    ∧ List.Sublist (removeOptimistic ev C) C
    ∧ handleRemoveBookmarkRun ev (Except.error err) C
        = Except.ok (removeOptimistic ev C ++ [ev], ["Failed to remove bookmark " ++ err])
    ∧ ev ∈ removeOptimistic ev C ++ [ev] := by
  refine ⟨?_, ?_, ?_, rfl, ?_⟩
  · intro e he
    unfold removeOptimistic at he
    have := (List.mem_filter.mp he).2
    simpa using this
  · intro e he hne
    unfold removeOptimistic
    exact List.mem_filter.mpr ⟨he, by simpa using hne⟩
  · exact List.filter_sublist C
  · exact List.mem_append_right _ (List.mem_singleton_self ev)

/-- Witness for C3: remove id 1 from `[id 1, id 2]`, remote rejects. -/
theorem removal_rollback_restores_witness :
    sampleEventA ∈ [sampleEventA, sampleEventB]
    ∧ ((∀ e ∈ removeOptimistic sampleEventA [sampleEventA, sampleEventB],
          e.id ≠ sampleEventA.id)
      ∧ (∀ e ∈ [sampleEventA, sampleEventB], e.id ≠ sampleEventA.id →
          e ∈ removeOptimistic sampleEventA [sampleEventA, sampleEventB])
      ∧ List.Sublist (removeOptimistic sampleEventA [sampleEventA, sampleEventB])
          [sampleEventA, sampleEventB]
      ∧ handleRemoveBookmarkRun sampleEventA (Except.error "network")
            [sampleEventA, sampleEventB]
          = Except.ok (removeOptimistic sampleEventA [sampleEventA, sampleEventB]
              ++ [sampleEventA], ["Failed to remove bookmark network"])
      ∧ sampleEventA ∈ removeOptimistic sampleEventA [sampleEventA, sampleEventB]
          ++ [sampleEventA]) :=
  ⟨List.mem_cons_self _ _,
    removal_rollback_restores [sampleEventA, sampleEventB] sampleEventA "network"
      (List.mem_cons_self _ _)⟩

/-- C5: the remote call issued by the toggle is determined by the captured
pre-toggle flag: `false` selects the activate POST, `true` the deactivate
DELETE, both at `/events/\x7bid\x7d/bookmark`. -/
theorem toggle_request_pre_toggle (ev : Event) :
    (ev.isBookmarked = false →
      toggleRequest ev = ApiCall.post ("/events/" ++ toString ev.id ++ "/bookmark"))
    ∧ (ev.isBookmarked = true →
      toggleRequest ev = ApiCall.delete ("/events/" ++ toString ev.id ++ "/bookmark")) := by
  constructor <;> intro h <;> simp [toggleRequest, bookmarkPath, h]

/-- Witness for C5 on one unbookmarked and one bookmarked event. -/
theorem toggle_request_pre_toggle_witness :
    sampleEventA.isBookmarked = false
    ∧ toggleRequest sampleEventA
        = ApiCall.post ("/events/" ++ toString sampleEventA.id ++ "/bookmark")
    ∧ sampleEventB.isBookmarked = true
    ∧ toggleRequest sampleEventB
        = ApiCall.delete ("/events/" ++ toString sampleEventB.id ++ "/bookmark") :=
  ⟨by decide, (toggle_request_pre_toggle sampleEventA).1 (by decide),
    by decide, (toggle_request_pre_toggle sampleEventB).2 (by decide)⟩

/-- C6: on remote success the success path mutates nothing: the handler
fulfills with the optimistic collection as final state — the target item's
flag is the negation of its pre-toggle value, every other item and the order
are unchanged — and logs nothing. -/
theorem toggle_success_stability (C : List Event) (ev : Event)
    (hmem : ev ∈ C) (hnodup : (C.map Event.id).Nodup) :
    handleBookmarkToggleRun ev (Except.ok ()) C
      = Except.ok
          ((C.map fun e =>
            if e.id = ev.id then { e with isBookmarked := !ev.isBookmarked } else e), []) := by
  have h : toggleOptimistic ev C
      = C.map fun e =>
          if e.id = ev.id then { e with isBookmarked := !ev.isBookmarked } else e := by
    unfold toggleOptimistic
    apply List.map_congr_left
    intro e he
    by_cases hid : e.id = ev.id
    · have heq : e = ev := eq_of_mem_of_nodup_ids hnodup hmem he hid
      subst heq
      simp
    · simp [hid]
  simp [handleBookmarkToggleRun, h]

/-- Witness for C6: successful toggle of id 1 in `[id 1, id 2]`. -/
theorem toggle_success_stability_witness :
    sampleEventA ∈ [sampleEventA, sampleEventB]
    ∧ (([sampleEventA, sampleEventB].map Event.id).Nodup)
    ∧ handleBookmarkToggleRun sampleEventA (Except.ok ()) [sampleEventA, sampleEventB]
        = Except.ok
            (([sampleEventA, sampleEventB].map fun e =>
              if e.id = sampleEventA.id
              then { e with isBookmarked := !sampleEventA.isBookmarked } else e), []) :=
  ⟨List.mem_cons_self _ _, by decide,
    toggle_success_stability [sampleEventA, sampleEventB] sampleEventA
      (List.mem_cons_self _ _) (by decide)⟩

/-- C4: mark-read performs no local mutation before its remote call — a
failed PUT leaves the notification list exactly as displayed (every item's
unread status included) and only logs; a successful PUT replaces the list
with the server's re-fetched collection; and a successful PUT whose re-fetch
fails also leaves the list unchanged. -/
theorem mark_read_refetch_gating (ns : List Notification) (err : String)
    (fetchResponse : Except String (List Notification)) (fetched : List Notification) :
    handleMarkReadRun ns (Except.error err) fetchResponse
        = Except.ok (ns, ["Error marking notification read " ++ err])
    ∧ handleMarkReadRun ns (Except.ok ()) (Except.ok fetched) = Except.ok (fetched, [])
    ∧ handleMarkReadRun ns (Except.ok ()) (Except.error err)
        = Except.ok (ns, ["Error fetching notifications " ++ err]) :=
  ⟨rfl, rfl, rfl⟩

/-- C7 counterexample: a list-loading fetch that fails while the state holds
a previously fetched non-empty list leaves that stale list displayed — it is
not degraded to the empty-list display the claim requires. -/
theorem fetch_failure_keeps_stale_list :
    fetchNotificationsRun [sampleNotification] (Except.error "network")
        = Except.ok ([sampleNotification], ["Error fetching notifications network"])
    ∧ ([sampleNotification] : List Notification) ≠ [] :=
  ⟨rfl, by decide⟩

/-- C7 amended: every list-loading fetch failure is caught and logged and no
exception propagates, and the displayed list is left unchanged rather than
reset; in particular a mount-time failure, where the list still holds its
initial empty value, shows the empty-list display. -/
theorem fetch_failure_absorbed_state_unchanged (es : List Event)
    (ns : List Notification) (err : String) :
    fetchEventsRun es (Except.error err)
        = Except.ok (es, ["Error fetching events " ++ err])
    ∧ fetchBookmarkedEventsRun es (Except.error err)
        = Except.ok (es, ["Error fetching bookmarks " ++ err])
    ∧ fetchNotificationsRun ns (Except.error err)
        = Except.ok (ns, ["Error fetching notifications " ++ err])
    ∧ fetchEventsRun [] (Except.error err)
        = Except.ok ([], ["Error fetching events " ++ err]) :=
  ⟨rfl, rfl, rfl, rfl⟩

/-- C8: every mutation handler (bookmark toggle, bookmark removal,
notification mark-read) fulfills normally for every remote outcome: the
failure is absorbed at the mutation site and never rejects past the
handler's own catch. -/
theorem mutation_failure_absorbed (ev : Event) (C : List Event)
    (ns : List Notification) (remote : Except String Unit)
    (fetchResponse : Except String (List Notification)) :
    (∃ r, handleBookmarkToggleRun ev remote C = Except.ok r)
    ∧ (∃ r, handleRemoveBookmarkRun ev remote C = Except.ok r)
    ∧ (∃ r, handleMarkReadRun ns remote fetchResponse = Except.ok r) := by
  refine ⟨?_, ?_, ?_⟩ <;> cases remote <;> cases fetchResponse <;> exact ⟨_, rfl⟩

/-- A state the spec reads as `anonymous` has its initial session check
resolved (`isLoading = false`). -/
theorem isLoading_eq_false_of_phase_anonymous {s : AuthState}
    (h : phase s = SessionPhase.anonymous) : s.isLoading = false := by
  cases hs : s.isLoading
  · rfl
  · simp [phase, hs] at h

/-- A state the spec reads as `authenticated` has its initial session check
resolved (`isLoading = false`). -/
theorem isLoading_eq_false_of_phase_authenticated {s : AuthState}
    (h : phase s = SessionPhase.authenticated) : s.isLoading = false := by
  cases hs : s.isLoading
  · rfl
  · simp [phase, hs] at h

/-- C9: the session store follows the specified state machine — the initial
state is `unknown`; resolution of the session check moves it to
`authenticated` on success and `anonymous` on failure; a successful login or
register moves an `anonymous` state to `authenticated`; and a (successful)
logout moves an `authenticated` state to `anonymous`. -/
theorem session_state_machine (s t : AuthState) (d e : String) :
    phase initialAuthState = SessionPhase.unknown
    ∧ phase (checkSession (Except.ok d) initialAuthState) = SessionPhase.authenticated
    ∧ phase (checkSession (Except.error e) initialAuthState) = SessionPhase.anonymous
    ∧ (phase s = SessionPhase.anonymous →
        ∃ s2, login (Except.ok d) s = Except.ok s2
          ∧ phase s2 = SessionPhase.authenticated)
    ∧ (phase s = SessionPhase.anonymous →
        ∃ s2, register (Except.ok d) s = Except.ok s2
          ∧ phase s2 = SessionPhase.authenticated)
    ∧ (phase t = SessionPhase.authenticated →
        ∃ t2, logout (Except.ok ()) t = Except.ok t2
          ∧ phase t2 = SessionPhase.anonymous) := by
  refine ⟨rfl, rfl, rfl, ?_, ?_, ?_⟩
  · intro h
    have hl := isLoading_eq_false_of_phase_anonymous h
    exact ⟨_, rfl, by simp [phase, login, hl]⟩
  · intro h
    have hl := isLoading_eq_false_of_phase_anonymous h
    exact ⟨_, rfl, by simp [phase, register, hl]⟩
  · intro h
    have hl := isLoading_eq_false_of_phase_authenticated h
    exact ⟨_, rfl, by simp [phase, logout, hl]⟩

/-- Sample resolved anonymous session state. -/
def anonState : AuthState := { user := none, isLoading := false }

/-- Sample resolved authenticated session state. -/
def authState : AuthState := { user := some "ada", isLoading := false }

/-- Witness for C9 with a concrete anonymous and a concrete authenticated
state. -/
theorem session_state_machine_witness :
    phase anonState = SessionPhase.anonymous
    ∧ phase authState = SessionPhase.authenticated
    ∧ (∃ s2, login (Except.ok "ada") anonState = Except.ok s2
        ∧ phase s2 = SessionPhase.authenticated)
    ∧ (∃ s2, register (Except.ok "ada") anonState = Except.ok s2
        ∧ phase s2 = SessionPhase.authenticated)
    ∧ (∃ t2, logout (Except.ok ()) authState = Except.ok t2
        ∧ phase t2 = SessionPhase.anonymous) :=
  ⟨by decide, by decide,
    (session_state_machine anonState authState "ada" "boom").2.2.2.1 (by decide),
    (session_state_machine anonState authState "ada" "boom").2.2.2.2.1 (by decide),
    (session_state_machine anonState authState "ada" "boom").2.2.2.2.2 (by decide)⟩

/-- C10: the removal rollback appends the captured item unconditionally, so
when the state at failure time already holds an item with the same id the
post-rollback collection counts that id at least twice — removal rollback
does not preserve id-uniqueness. -/
theorem remove_rollback_duplicates_ids (C : List Event) (ev e : Event)
    (hmem : e ∈ C) (hid : e.id = ev.id) :
    removeRollback ev C = C ++ [ev]
    ∧ 2 ≤ ((removeRollback ev C).map Event.id).count ev.id
    ∧ ¬ ((removeRollback ev C).map Event.id).Nodup := by
  have h1 : ev.id ∈ C.map Event.id := hid ▸ List.mem_map_of_mem Event.id hmem
  have h2 : 0 < (C.map Event.id).count ev.id := List.count_pos_iff.mpr h1
  have hcount : 2 ≤ ((removeRollback ev C).map Event.id).count ev.id := by
    unfold removeRollback
    rw [List.map_append, List.count_append]
    have h3 : ([ev].map Event.id).count ev.id = 1 := by simp
    omega
  refine ⟨rfl, hcount, fun hnd => ?_⟩
  have hle := List.nodup_iff_count_le_one.mp hnd ev.id
  omega

/-- Witness for C10: id 1 was optimistically removed from `[id 1, id 2]` and
re-added while the call was in flight; the failing call's rollback appends a
second copy of id 1. -/
theorem remove_rollback_duplicates_ids_witness :
    sampleEventA ∈ [sampleEventB, sampleEventA]
    ∧ sampleEventA.id = sampleEventA.id
    ∧ (removeRollback sampleEventA [sampleEventB, sampleEventA]
          = [sampleEventB, sampleEventA] ++ [sampleEventA]
      ∧ 2 ≤ ((removeRollback sampleEventA [sampleEventB, sampleEventA]).map
            Event.id).count sampleEventA.id
      ∧ ¬ ((removeRollback sampleEventA [sampleEventB, sampleEventA]).map
            Event.id).Nodup) :=
  ⟨by decide, rfl,
    remove_rollback_duplicates_ids [sampleEventB, sampleEventA] sampleEventA sampleEventA
      (by decide) rfl⟩

end ExpoEvents
